import Mathlib

/-!
Verification of the DBMG contact-form backend (`src/app.py`).

The program is a single-file Flask application:
* `submit_contact` (POST `/submit-contact`): validates the JSON payload,
  saves a `Contact` row (failure logged, not fatal), dispatches a
  notification email on a background thread, returns a JSON status;
* `list_contacts` (GET `/contacts`): returns all rows ordered by
  `submitted_at` descending;
* `send_email_background`: best-effort delivery through the Resend HTTP
  API, with a 10 second timeout, catching every exception.

The embedding models JSON field values as either strings or arbitrary
non-string values (carrying the truthiness and `str()` rendering Python
would give them), the database session as a list of rows plus an
auto-increment counter, wall-clock time as a natural number, and the mail
transport as an oracle function supplied in the environment.
-/

/-- A JSON value as seen by the handler: a string, or any non-string JSON
value (`null`, a number, ...).  For a non-string value we record its Python
truthiness and its `str()` rendering, which is all the handler can observe
of it. -/
inductive JVal where
  | jstr (s : String)
  | jother (truthy : Bool) (pyRepr : String)
deriving DecidableEq, Repr

/-- The parsed JSON body of a POST `/submit-contact` request: each of the
six recognised keys is absent or bound to a JSON value. -/
structure Payload where
  name : Option JVal
  email : Option JVal
  phone : Option JVal
  company : Option JVal
  service : Option JVal
  message : Option JVal
deriving DecidableEq, Repr

/-- Python `data.get(field, default)` where `default` is a string literal. -/
def pyGet (v : Option JVal) (dflt : String) : JVal :=
  v.getD (JVal.jstr dflt)

/-- Leading and trailing whitespace removed from a character list. -/
def trimChars (l : List Char) : List Char :=
  ((l.dropWhile Char.isWhitespace).reverse.dropWhile Char.isWhitespace).reverse

/-- Python `str.strip()` with no argument: the string with leading and
trailing whitespace removed. -/
def pyTrim (s : String) : String :=
  String.mk (trimChars s.data)

/-- Python `.strip()` on a JSON value: trims a string, raises
`AttributeError` on a non-string value.  The error branch models the
exception. -/
def pyStrip : JVal → Except String String
  | JVal.jstr s => Except.ok (pyTrim s)
  | JVal.jother _ r => Except.error ("AttributeError on " ++ r)

/-- Python `str(v)` as used inside an f-string. -/
def pyStr : JVal → String
  | JVal.jstr s => s
  | JVal.jother _ r => r

/-- Python `v or dflt` rendered with `str`: yields `dflt` when `v` is
falsy (the empty string, or a non-string value whose truthiness is
false). -/
def pyOrStr (v : JVal) (dflt : String) : String :=
  match v with
  | JVal.jstr s => if s = "" then dflt else s
  | JVal.jother t r => if t then r else dflt

/-- A row of the `Contact` table (`class Contact(db.Model)`), with
`submitted_at` modelled as a natural-number UTC timestamp. -/
structure Contact where
  id : Nat
  name : String
  email : String
  phone : String
  company : String
  service : String
  message : String
  submitted_at : Nat
deriving DecidableEq, Repr

/-- The database state: the committed rows and the auto-increment counter
for the integer primary key. -/
structure DB where
  nextId : Nat
  rows : List Contact
deriving DecidableEq, Repr

/-- The empty database created by `db.create_all()`; SQLite integer
primary keys start at 1. -/
def DB.init : DB := { nextId := 1, rows := [] }

/-- A JSON HTTP response of `submit_contact`: status code plus the
`success`/`message` body fields. -/
structure HttpResponse where
  status : Nat
  success : Bool
  message : String
deriving DecidableEq, Repr

/-- The outbound HTTP request `send_email_background` builds for the
Resend API, including the timeout it passes to `urlopen`. -/
structure EmailRequest where
  url : String
  fromEmail : String
  toList : List String
  subject : String
  text : String
  timeout : Nat
deriving DecidableEq, Repr

/-- What the mail transport (`urllib.request.urlopen`) does with a
request: succeed with a status, raise `urllib.error.HTTPError`, or raise
any other exception (timeout, connection error, ...). -/
inductive TransportOutcome where
  | ok (status : Nat)
  | httpError (code : Nat) (reason : String) (errBody : String)
  | raised (msg : String)
deriving DecidableEq, Repr

/-- What one call of `send_email_background` logs. -/
inductive NotifyLog where
  | skippedNoKey
  | sent (status : Nat)
  | failedHttp (code : Nat) (reason : String)
  | failedOther (msg : String)
deriving DecidableEq, Repr

/-- The environment a request runs in: configuration read from
`os.getenv`, whether `db.session.commit()` succeeds, the current UTC
clock, the random 4-character tag, and the mail transport. -/
structure Env where
  notifyEmail : Option String
  resendApiKey : Option String
  fromEmail : Option String
  dbOk : Bool
  now : Nat
  uniqueId : String
  transport : EmailRequest → TransportOutcome

/-- A dispatched notification: the arguments handed to the background
thread running `send_email_background`. -/
structure EmailDispatch where
  subject : String
  recipient : String
  body : String
deriving DecidableEq, Repr

/-- The request `send_email_background` builds for the Resend API
(`urllib.request.Request(...)`), posted with `timeout=10`. -/
def resendRequest (fromEmail : Option String)
    (recipient subject body : String) : EmailRequest :=
  { url := "https://api.resend.com/emails"
    fromEmail := fromEmail.getD "onboarding@resend.dev"
    toList := [recipient]
    subject := subject
    text := body
    timeout := 10 }

/-- `send_email_background(subject, recipient, body)`: skip with a
warning when `RESEND_API_KEY` is unset, otherwise POST to the Resend API
with `timeout=10`, catching `HTTPError` and every other exception.  The
result is the log entry together with the delivery attempts made; an
`Except.error` result would model an exception escaping to the caller. -/
def send_email_background (apiKey fromEmail : Option String)
    (transport : EmailRequest → TransportOutcome)
    (subject recipient body : String) :
    Except String (NotifyLog × List EmailRequest) :=
  match apiKey with
  | none => Except.ok (NotifyLog.skippedNoKey, [])
  | some _ =>
    let req : EmailRequest := resendRequest fromEmail recipient subject body
    match transport req with
    | TransportOutcome.ok st => Except.ok (NotifyLog.sent st, [req])
    | TransportOutcome.httpError c r _ => Except.ok (NotifyLog.failedHttp c r, [req])
    | TransportOutcome.raised m => Except.ok (NotifyLog.failedOther m, [req])

/-- The value of `data` at one of the six recognised keys. -/
def fieldVal (p : Payload) : String → Option JVal
  | "name" => p.name
  | "email" => p.email
  | "phone" => p.phone
  | "company" => p.company
  | "service" => p.service
  | "message" => p.message
  | _ => none

/-- `required = ['name', 'email', 'message']`. -/
def requiredFields : List String := ["name", "email", "message"]

/-- The validation loop
`for field in required: if not data.get(field, '').strip(): return 400`.
`Except.error` models an uncaught exception, `Except.ok (some f)` the 400
return naming field `f`, `Except.ok none` falling through the loop. -/
def checkRequired (p : Payload) : List String → Except String (Option String)
  | [] => Except.ok none
  | f :: fs =>
    match pyStrip (pyGet (fieldVal p f) "") with
    | Except.error e => Except.error e
    | Except.ok s =>
      if s = "" then Except.ok (some f) else checkRequired p fs

/-- Construction of the `Contact` row: every field is
`data.get(key, '').strip()`, in source order; any non-string value raises
`AttributeError` before the row exists. -/
def buildContact (p : Payload) (cid tnow : Nat) : Except String Contact :=
  match pyStrip (pyGet p.name "") with
  | Except.error e => Except.error e
  | Except.ok n =>
  match pyStrip (pyGet p.email "") with
  | Except.error e => Except.error e
  | Except.ok e =>
  match pyStrip (pyGet p.phone "") with
  | Except.error e => Except.error e
  | Except.ok ph =>
  match pyStrip (pyGet p.company "") with
  | Except.error e => Except.error e
  | Except.ok co =>
  match pyStrip (pyGet p.service "") with
  | Except.error e => Except.error e
  | Except.ok sv =>
  match pyStrip (pyGet p.message "") with
  | Except.error e => Except.error e
  | Except.ok m =>
    Except.ok { id := cid, name := n, email := e, phone := ph,
                company := co, service := sv, message := m,
                submitted_at := tnow }

/-- The inner `try: ... db.session.commit() except: db.session.rollback()`
block: on any failure (row construction raising, or the commit failing)
the transaction is rolled back and the state is unchanged. -/
def trySave (env : Env) (p : Payload) (db : DB) : DB :=
  match buildContact p db.nextId env.now with
  | Except.error _ => db
  | Except.ok c =>
    if env.dbOk then { nextId := db.nextId + 1, rows := db.rows ++ [c] }
    else db

/-- The notification subject
`f'New Contact Form Submission – X [id]'` built from the raw
`data.get("name", "Unknown")`. -/
def emailSubject (p : Payload) (uid : String) : String :=
  "New Contact Form Submission – " ++ pyStr (pyGet p.name "Unknown")
    ++ " [" ++ uid ++ "]"

/-- The notification body f-string, `.strip()`-ed, built from the raw
field values. -/
def emailBody (p : Payload) : String :=
  pyTrim ("\nNew contact form submission received on DBM GROUPS website.\n\n"
    ++ "━━━━━━━━━━━━━━━━━━━━━━━━━━━━━\n"
    ++ "  Name     : " ++ pyStr (pyGet p.name "N/A") ++ "\n"
    ++ "  Email    : " ++ pyStr (pyGet p.email "N/A") ++ "\n"
    ++ "  Phone    : " ++ pyOrStr (pyGet p.phone "N/A") "N/A" ++ "\n"
    ++ "  Company  : " ++ pyOrStr (pyGet p.company "N/A") "N/A" ++ "\n"
    ++ "  Service  : " ++ pyOrStr (pyGet p.service "N/A") "N/A" ++ "\n"
    ++ "━━━━━━━━━━━━━━━━━━━━━━━━━━━━━\n\n"
    ++ "Message:\n" ++ pyStr (pyGet p.message "N/A") ++ "\n"
    ++ "━━━━━━━━━━━━━━━━━━━━━━━━━━━━━━\n        ")

/-- The default notification recipient,
`os.getenv('NOTIFY_EMAIL', 'sales@dbmgroups.com')`. -/
def notifyRecipient (env : Env) : String :=
  env.notifyEmail.getD "sales@dbmgroups.com"

/-- Everything a POST `/submit-contact` request produces: the HTTP
response, the database state afterwards, the notifications handed to
background threads, and what those threads subsequently do. -/
structure SubmitResult where
  response : HttpResponse
  db : DB
  notifications : List EmailDispatch
  emailLogs : List (Except String (NotifyLog × List EmailRequest))

/-- The `submit_contact` route handler.  The outer `try` turns any
uncaught exception (in particular `AttributeError` from `.strip()` on a
non-string required value) into a generic 500; a missing required field
returns 400 before any side effect; otherwise the save is attempted
(failure swallowed), exactly one notification thread is started, and the
fixed success response is returned. -/
def submit_contact (env : Env) (p : Payload) (db : DB) : SubmitResult :=
  match checkRequired p requiredFields with
  | Except.error _ =>
    { response := { status := 500, success := false,
                    message := "Server error. Please try again later." }
      db := db, notifications := [], emailLogs := [] }
  | Except.ok (some f) =>
    { response := { status := 400, success := false,
                    message := "\"" ++ f ++ "\" is required." }
      db := db, notifications := [], emailLogs := [] }
  | Except.ok none =>
    let db2 := trySave env p db
    let d : EmailDispatch :=
      { subject := emailSubject p env.uniqueId
        recipient := notifyRecipient env
        body := emailBody p }
    { response := { status := 200, success := true,
                    message := "Thank you! Your message has been sent successfully." }
      db := db2
      notifications := [d]
      emailLogs := [send_email_background env.resendApiKey env.fromEmail
                      env.transport d.subject d.recipient d.body] }

/-- The `ORDER BY submitted_at DESC` comparison: `a` may come before `b`
when `a` was submitted no earlier than `b`. -/
def newestFirst (a b : Contact) : Prop :=
  b.submitted_at ≤ a.submitted_at

instance : DecidableRel newestFirst :=
  fun a b => Nat.decLe b.submitted_at a.submitted_at

instance : IsTotal Contact newestFirst :=
  ⟨fun a b => Nat.le_total b.submitted_at a.submitted_at⟩

instance : IsTrans Contact newestFirst :=
  ⟨fun _ _ _ h1 h2 => Nat.le_trans h2 h1⟩

/-- The GET `/contacts` route: all rows ordered by `submitted_at`
descending (`Contact.query.order_by(Contact.submitted_at.desc()).all()`);
each row is serialised with all eight fields.  The SQL engine guarantees
only the ordering, modelled here by a concrete sort. -/
def list_contacts (db : DB) : List Contact :=
  List.insertionSort newestFirst db.rows

/-- One observable state transition of the system: a POST
`/submit-contact` with any payload in any environment, or one of the
read-only routes (GET `/contacts`, static file serving). -/
inductive Step : DB → DB → Prop where
  | submit (env : Env) (p : Payload) (db : DB) :
      Step db (submit_contact env p db).db
  | readOnly (db : DB) : Step db db

/-- Database states reachable from the freshly created empty database. -/
inductive Reachable : DB → Prop where
  | init : Reachable DB.init
  | step {a b : DB} : Reachable a → Step a b → Reachable b

/-! ### Spec-side predicates -/

/-- A required field as the spec demands it: present, a string, and
non-empty after trimming. -/
def presentNonBlank (v : Option JVal) : Prop :=
  ∃ s, v = some (JVal.jstr s) ∧ pyTrim s ≠ ""

/-- A payload that passes validation: `name`, `email` and `message` are
all present non-blank strings. -/
def validPayload (p : Payload) : Prop :=
  presentNonBlank p.name ∧ presentNonBlank p.email ∧ presentNonBlank p.message

/-- The field is typed as the HTTP interface declares: a string, or
absent. -/
def stringOrAbsent : Option JVal → Prop
  | none => True
  | some (JVal.jstr _) => True
  | some (JVal.jother _ _) => False

/-- A required field that validation treats as missing: absent, or a
string that trims to empty. -/
def blankField : Option JVal → Bool
  | none => true
  | some (JVal.jstr s) => decide (pyTrim s = "")
  | some (JVal.jother _ _) => false

/-- The first missing required field in the spec's fixed order `name`,
`email`, `message`. -/
def firstMissingField (p : Payload) : Option String :=
  if blankField p.name then some "name"
  else if blankField p.email then some "email"
  else if blankField p.message then some "message"
  else none

/-- What validation sees at a field: `some true` for a non-string value
(`.strip()` raises), `some false` for an absent or blank one (the 400
return), `none` for a field that passes. -/
def offenderKind : Option JVal → Option Bool
  | none => some false
  | some (JVal.jstr s) => if pyTrim s = "" then some false else none
  | some (JVal.jother _ _) => some true

/-- The first required field, in the order `name`, `email`, `message`,
that validation does not pass, paired with whether it holds a non-string
value. -/
def firstOffender (p : Payload) : Option (String × Bool) :=
  match offenderKind p.name with
  | some b => some ("name", b)
  | none =>
    match offenderKind p.email with
    | some b => some ("email", b)
    | none =>
      match offenderKind p.message with
      | some b => some ("message", b)
      | none => none

/-- The string value the handler stores for a field: the trimmed string
when present, the empty string when absent. -/
def trimmedInput : Option JVal → String
  | some (JVal.jstr s) => pyTrim s
  | some (JVal.jother _ _) => ""
  | none => ""

/-- Per-field trimming of a payload, used to state the spec's claim that
notifications are built from the trimmed fields. -/
def trimField : Option JVal → Option JVal
  | some (JVal.jstr s) => some (JVal.jstr (pyTrim s))
  | v => v

/-- The payload with every present string field trimmed. -/
def trimPayload (p : Payload) : Payload :=
  { name := trimField p.name, email := trimField p.email,
    phone := trimField p.phone, company := trimField p.company,
    service := trimField p.service, message := trimField p.message }

/-- Strict descent of a timestamp list: every entry strictly greater than
its successor. -/
def strictlyDescending : List Nat → Bool
  | [] => true
  | [_] => true
  | a :: b :: t => decide (b < a) && strictlyDescending (b :: t)

/-! ### Bridging lemmas between the embedded code and the spec-side
predicates -/

theorem fieldVal_name (p : Payload) : fieldVal p "name" = p.name := rfl

theorem fieldVal_email (p : Payload) : fieldVal p "email" = p.email := rfl

theorem fieldVal_message (p : Payload) : fieldVal p "message" = p.message := rfl

theorem pyStrip_stringOrAbsent {v : Option JVal} (h : stringOrAbsent v) :
    pyStrip (pyGet v "") = Except.ok (trimmedInput v) := by
  cases v with
  | none => rfl
  | some j =>
    cases j with
    | jstr s => rfl
    | jother t r => exact h.elim

theorem blankField_eq {v : Option JVal} (h : stringOrAbsent v) :
    blankField v = decide (trimmedInput v = "") := by
  cases v with
  | none => rfl
  | some j =>
    cases j with
    | jstr s => rfl
    | jother t r => exact h.elim

theorem checkRequired_ok_of_valid {p : Payload} (h : validPayload p) :
    checkRequired p requiredFields = Except.ok none := by
  obtain ⟨⟨n, hn, hn2⟩, ⟨e, he, he2⟩, ⟨m, hm, hm2⟩⟩ := h
  simp [requiredFields, checkRequired, fieldVal_name, fieldVal_email,
    fieldVal_message, pyGet, pyStrip, hn, he, hm, hn2, he2, hm2]

theorem checkRequired_eq_400 {p : Payload} {f : String}
    (h1 : stringOrAbsent p.name) (h2 : stringOrAbsent p.email)
    (h3 : stringOrAbsent p.message)
    (hf : firstMissingField p = some f) :
    checkRequired p requiredFields = Except.ok (some f) := by
  rw [firstMissingField, blankField_eq h1, blankField_eq h2, blankField_eq h3] at hf
  simp only [requiredFields, checkRequired, fieldVal_name, fieldVal_email,
    fieldVal_message, pyStrip_stringOrAbsent h1, pyStrip_stringOrAbsent h2,
    pyStrip_stringOrAbsent h3]
  split_ifs at hf ⊢ <;> simp_all

theorem checkRequired_error_of_offender {p : Payload} {f : String}
    (hf : firstOffender p = some (f, true)) :
    ∃ e, checkRequired p requiredFields = Except.error e := by
  simp only [requiredFields, checkRequired, fieldVal_name, fieldVal_email,
    fieldVal_message]
  rw [firstOffender] at hf
  cases hn : p.name with
  | some jn =>
    cases jn with
    | jstr s =>
      rw [hn] at hf
      simp only [offenderKind] at hf
      by_cases hs : pyTrim s = ""
      · rw [if_pos hs] at hf; simp at hf
      · rw [if_neg hs] at hf
        simp only [hn, pyGet, Option.getD, pyStrip, if_neg hs]
        cases he : p.email with
        | some je =>
          cases je with
          | jstr t =>
            rw [he] at hf
            simp only [offenderKind] at hf
            by_cases ht : pyTrim t = ""
            · rw [if_pos ht] at hf; simp at hf
            · rw [if_neg ht] at hf
              simp only [he, pyGet, Option.getD, pyStrip, if_neg ht]
              cases hm : p.message with
              | some jm =>
                cases jm with
                | jstr u =>
                  rw [hm] at hf
                  simp only [offenderKind] at hf
                  by_cases hu : pyTrim u = ""
                  · rw [if_pos hu] at hf; simp at hf
                  · rw [if_neg hu] at hf; simp at hf
                | jother tr r =>
                  simp [hm, pyGet, pyStrip]
              | none =>
                rw [hm] at hf; simp [offenderKind] at hf
          | jother tr r =>
            simp [he, pyGet, pyStrip]
        | none =>
          rw [he] at hf; simp [offenderKind] at hf
    | jother tr r =>
      simp [hn, pyGet, pyStrip]
  | none =>
    rw [hn] at hf; simp [offenderKind] at hf
theorem stringOrAbsent_of_present {v : Option JVal} (h : presentNonBlank v) :
    stringOrAbsent v := by
  obtain ⟨s, hs, _⟩ := h
  rw [hs]
  trivial

/-- The row the handler stores for payload `p` with primary key `cid` at
time `tnow`. -/
def contactOf (p : Payload) (cid tnow : Nat) : Contact :=
  { id := cid, name := trimmedInput p.name, email := trimmedInput p.email,
    phone := trimmedInput p.phone, company := trimmedInput p.company,
    service := trimmedInput p.service, message := trimmedInput p.message,
    submitted_at := tnow }

theorem buildContact_eq {p : Payload} (h : validPayload p)
    (hph : stringOrAbsent p.phone) (hco : stringOrAbsent p.company)
    (hsv : stringOrAbsent p.service) (cid tnow : Nat) :
    buildContact p cid tnow = Except.ok (contactOf p cid tnow) := by
  simp [buildContact, contactOf,
    pyStrip_stringOrAbsent (stringOrAbsent_of_present h.1),
    pyStrip_stringOrAbsent (stringOrAbsent_of_present h.2.1),
    pyStrip_stringOrAbsent (stringOrAbsent_of_present h.2.2),
    pyStrip_stringOrAbsent hph, pyStrip_stringOrAbsent hco,
    pyStrip_stringOrAbsent hsv]

theorem pyStrip_ok_inv {v : JVal} {s : String}
    (h : pyStrip v = Except.ok s) : ∃ u, v = JVal.jstr u ∧ s = pyTrim u := by
  cases v with
  | jstr u =>
    refine ⟨u, rfl, ?_⟩
    simpa [pyStrip] using h.symm
  | jother t r => simp [pyStrip] at h

theorem buildContact_ok_inv {p : Payload} {cid tnow : Nat} {c : Contact}
    (h : buildContact p cid tnow = Except.ok c) :
    pyStrip (pyGet p.name "") = Except.ok c.name ∧
    pyStrip (pyGet p.email "") = Except.ok c.email ∧
    pyStrip (pyGet p.message "") = Except.ok c.message ∧
    c.id = cid ∧ c.submitted_at = tnow := by
  unfold buildContact at h
  cases h1 : pyStrip (pyGet p.name "") with
  | error e => simp only [h1] at h; exact Except.noConfusion h
  | ok n =>
  simp only [h1] at h
  cases h2 : pyStrip (pyGet p.email "") with
  | error e => simp only [h2] at h; exact Except.noConfusion h
  | ok em =>
  simp only [h2] at h
  cases h3 : pyStrip (pyGet p.phone "") with
  | error e => simp only [h3] at h; exact Except.noConfusion h
  | ok ph =>
  simp only [h3] at h
  cases h4 : pyStrip (pyGet p.company "") with
  | error e => simp only [h4] at h; exact Except.noConfusion h
  | ok co =>
  simp only [h4] at h
  cases h5 : pyStrip (pyGet p.service "") with
  | error e => simp only [h5] at h; exact Except.noConfusion h
  | ok sv =>
  simp only [h5] at h
  cases h6 : pyStrip (pyGet p.message "") with
  | error e => simp only [h6] at h; exact Except.noConfusion h
  | ok m =>
  simp only [h6] at h
  injection h with h
  subst h
  exact ⟨rfl, rfl, rfl, rfl, rfl⟩

theorem checkRequired_none_inv {p : Payload}
    (h : checkRequired p requiredFields = Except.ok none) :
    ∃ n e m, pyStrip (pyGet p.name "") = Except.ok n ∧ n ≠ "" ∧
      pyStrip (pyGet p.email "") = Except.ok e ∧ e ≠ "" ∧
      pyStrip (pyGet p.message "") = Except.ok m ∧ m ≠ "" := by
  simp only [requiredFields, checkRequired, fieldVal_name, fieldVal_email,
    fieldVal_message] at h
  cases h1 : pyStrip (pyGet p.name "") with
  | error e => simp only [h1] at h; exact Except.noConfusion h
  | ok n =>
  simp only [h1] at h
  by_cases hn : n = ""
  · rw [if_pos hn] at h; simp at h
  · rw [if_neg hn] at h
    cases h2 : pyStrip (pyGet p.email "") with
    | error e => simp only [h2] at h; exact Except.noConfusion h
    | ok em =>
    simp only [h2] at h
    by_cases he : em = ""
    · rw [if_pos he] at h; simp at h
    · rw [if_neg he] at h
      cases h3 : pyStrip (pyGet p.message "") with
      | error e => simp only [h3] at h; exact Except.noConfusion h
      | ok m =>
      simp only [h3] at h
      by_cases hm : m = ""
      · rw [if_pos hm] at h; simp at h
      · exact ⟨n, em, m, rfl, hn, rfl, he, rfl, hm⟩

theorem trySave_dbFail {env : Env} {p : Payload} (db : DB)
    (hf : env.dbOk = false) : trySave env p db = db := by
  unfold trySave
  cases buildContact p db.nextId env.now <;> simp [hf]

theorem trySave_success {env : Env} {p : Payload} (db : DB)
    (h : validPayload p) (hph : stringOrAbsent p.phone)
    (hco : stringOrAbsent p.company) (hsv : stringOrAbsent p.service)
    (hok : env.dbOk = true) :
    trySave env p db =
      { nextId := db.nextId + 1
        rows := db.rows ++ [contactOf p db.nextId env.now] } := by
  unfold trySave
  rw [buildContact_eq h hph hco hsv]
  simp [hok]

theorem submit_contact_valid (env : Env) {p : Payload} (db : DB)
    (h : validPayload p) :
    submit_contact env p db =
      { response :=
          { status := 200
            success := true
            message := "Thank you! Your message has been sent successfully." }
        db := trySave env p db
        notifications := [{ subject := emailSubject p env.uniqueId,
                            recipient := notifyRecipient env,
                            body := emailBody p }]
        emailLogs := [send_email_background env.resendApiKey env.fromEmail
            env.transport (emailSubject p env.uniqueId) (notifyRecipient env)
            (emailBody p)] } := by
  simp [submit_contact, checkRequired_ok_of_valid h]

theorem dropWhile_dropWhile (p : α → Bool) (l : List α) :
    (l.dropWhile p).dropWhile p = l.dropWhile p := by
  induction l with
  | nil => rfl
  | cons a t ih =>
    by_cases h : p a
    · simp [List.dropWhile_cons, h, ih]
    · simp [List.dropWhile_cons, h]

theorem dropWhile_eq_self_append {p : α → Bool} {x y : List α}
    (h : (x ++ y).dropWhile p = x ++ y) : x.dropWhile p = x := by
  cases x with
  | nil => rfl
  | cons a x' =>
    have hpa : p a = false := by
      by_contra hc
      have hpa : p a = true := by simpa using hc
      have h2 : (x' ++ y).dropWhile p = a :: (x' ++ y) := by
        simpa [List.dropWhile_cons, hpa] using h
      have hlen := (List.dropWhile_sublist (l := x' ++ y) p).length_le
      rw [h2] at hlen
      simp at hlen
    simp [List.dropWhile_cons, hpa]

theorem trimChars_idem (l : List Char) : trimChars (trimChars l) = trimChars l := by
  unfold trimChars
  obtain ⟨t, ht⟩ :
      ∃ t, t ++ (l.dropWhile Char.isWhitespace).reverse.dropWhile Char.isWhitespace
        = (l.dropWhile Char.isWhitespace).reverse :=
    ⟨(l.dropWhile Char.isWhitespace).reverse.takeWhile Char.isWhitespace,
      List.takeWhile_append_dropWhile _ _⟩
  have hA : (l.dropWhile Char.isWhitespace).dropWhile Char.isWhitespace
      = l.dropWhile Char.isWhitespace := dropWhile_dropWhile _ _
  have hTpre :
      (((l.dropWhile Char.isWhitespace).reverse.dropWhile Char.isWhitespace).reverse
        ++ t.reverse).dropWhile Char.isWhitespace =
      ((l.dropWhile Char.isWhitespace).reverse.dropWhile Char.isWhitespace).reverse
        ++ t.reverse := by
    have : ((l.dropWhile Char.isWhitespace).reverse.dropWhile Char.isWhitespace).reverse
        ++ t.reverse = l.dropWhile Char.isWhitespace := by
      have := congrArg List.reverse ht
      simpa [List.reverse_append] using this
    rw [this]
    exact hA
  have hT := dropWhile_eq_self_append hTpre
  rw [hT]
  rw [List.reverse_reverse]
  rw [dropWhile_dropWhile]

theorem pyTrim_idem (s : String) : pyTrim (pyTrim s) = pyTrim s := by
  unfold pyTrim
  exact congrArg String.mk (trimChars_idem s.data)

/-! ### Concrete fixtures used by witnesses and counterexamples -/

/-- A transport for which every delivery attempt raises: the relay is
unreachable. -/
def downTransport : EmailRequest → TransportOutcome :=
  fun _ => TransportOutcome.raised "connection refused"

/-- A transport that accepts every request. -/
def okTransport : EmailRequest → TransportOutcome :=
  fun _ => TransportOutcome.ok 200

/-- A healthy environment: store up, API key set, relay reachable. -/
def envOk : Env :=
  { notifyEmail := none, resendApiKey := some "re_testkey", fromEmail := none,
    dbOk := true, now := 5, uniqueId := "ABCD", transport := okTransport }

/-- Store up, but the mail relay unreachable. -/
def envDown : Env :=
  { notifyEmail := none, resendApiKey := some "re_testkey", fromEmail := none,
    dbOk := true, now := 5, uniqueId := "ABCD", transport := downTransport }

/-- The store write fails (database unavailable). -/
def envDbFail : Env :=
  { notifyEmail := none, resendApiKey := some "re_testkey", fromEmail := none,
    dbOk := false, now := 5, uniqueId := "ABCD", transport := okTransport }

/-- The spec scenario payload `{"name":"Jo","email":"jo@x.com","message":"Hi"}`. -/
def pJo : Payload :=
  { name := some (JVal.jstr "Jo"), email := some (JVal.jstr "jo@x.com"),
    phone := none, company := none, service := none,
    message := some (JVal.jstr "Hi") }

theorem validPayload_pJo : validPayload pJo :=
  ⟨⟨"Jo", rfl, by decide⟩, ⟨"jo@x.com", rfl, by decide⟩, ⟨"Hi", rfl, by decide⟩⟩

/-- The scenario payload with an empty `name`. -/
def pNoName : Payload :=
  { name := some (JVal.jstr ""), email := some (JVal.jstr "jo@x.com"),
    phone := none, company := none, service := none,
    message := some (JVal.jstr "Hi") }

/-- A valid payload whose `name` carries surrounding whitespace. -/
def pSpacey : Payload :=
  { name := some (JVal.jstr " Jo "), email := some (JVal.jstr "jo@x.com"),
    phone := none, company := none, service := none,
    message := some (JVal.jstr "Hi") }

theorem validPayload_pSpacey : validPayload pSpacey :=
  ⟨⟨" Jo ", rfl, by decide⟩, ⟨"jo@x.com", rfl, by decide⟩, ⟨"Hi", rfl, by decide⟩⟩

/-! ### Claim theorems -/

/-- C1: for every payload whose trimmed `name`, `email` and `message` are
non-empty strings, POST `/submit-contact` answers HTTP 200 with
`success = true` and the fixed thank-you message, in every environment —
in particular whatever the notification transport does. -/
theorem submit_valid_returns_200 (env : Env) (p : Payload) (db : DB)
    (h : validPayload p) :
    (submit_contact env p db).response.status = 200 ∧
    (submit_contact env p db).response.success = true ∧
    (submit_contact env p db).response.message =
      "Thank you! Your message has been sent successfully." := by
  rw [submit_contact_valid env db h]
  exact ⟨rfl, rfl, rfl⟩

/-- C1 witness: the scenario payload against an unreachable mail relay
still yields the 200 success response. -/
theorem submit_valid_returns_200_witness :
    validPayload pJo ∧
    ((submit_contact envDown pJo DB.init).response.status = 200 ∧
     (submit_contact envDown pJo DB.init).response.success = true ∧
     (submit_contact envDown pJo DB.init).response.message =
       "Thank you! Your message has been sent successfully.") :=
  ⟨validPayload_pJo, submit_valid_returns_200 envDown pJo DB.init validPayload_pJo⟩

/-- C2: for every string-typed payload missing a required field (absent or
whitespace-only), the handler answers 400 naming the first missing field
in the order `name`, `email`, `message`; nothing is persisted and no
notification is dispatched. -/
theorem submit_missing_field_returns_400 (env : Env) (p : Payload) (db : DB)
    (f : String)
    (h1 : stringOrAbsent p.name) (h2 : stringOrAbsent p.email)
    (h3 : stringOrAbsent p.message)
    (hf : firstMissingField p = some f) :
    (submit_contact env p db).response =
      { status := 400, success := false,
        message := "\"" ++ f ++ "\" is required." } ∧
    (submit_contact env p db).db = db ∧
    (submit_contact env p db).notifications = [] ∧
    (submit_contact env p db).emailLogs = [] := by
  have hc := checkRequired_eq_400 h1 h2 h3 hf
  simp [submit_contact, hc]

/-- C2 witness: the spec scenario `name = ""` yields
`400 "name" is required.` and no side effects. -/
theorem submit_missing_field_returns_400_witness :
    (stringOrAbsent pNoName.name ∧ stringOrAbsent pNoName.email ∧
     stringOrAbsent pNoName.message ∧ firstMissingField pNoName = some "name") ∧
    ((submit_contact envOk pNoName DB.init).response =
      { status := 400, success := false,
        message := "\"" ++ "name" ++ "\" is required." } ∧
     (submit_contact envOk pNoName DB.init).db = DB.init ∧
     (submit_contact envOk pNoName DB.init).notifications = [] ∧
     (submit_contact envOk pNoName DB.init).emailLogs = []) :=
  ⟨⟨trivial, trivial, trivial, by decide⟩,
   submit_missing_field_returns_400 envOk pNoName DB.init "name"
     trivial trivial trivial (by decide)⟩

/-- C3: a valid payload whose store write fails leaves the store exactly
as it was (the rollback makes the failed write invisible), still
dispatches one notification, and still answers the 200 success
response. -/
theorem submit_store_failure_still_200 (env : Env) (p : Payload) (db : DB)
    (h : validPayload p) (hfail : env.dbOk = false) :
    (submit_contact env p db).db = db ∧
    (submit_contact env p db).notifications.length = 1 ∧
    (submit_contact env p db).response =
      { status := 200, success := true,
        message := "Thank you! Your message has been sent successfully." } := by
  rw [submit_contact_valid env db h]
  exact ⟨trySave_dbFail db hfail, rfl, rfl⟩

/-- C3 witness: the scenario payload with the store down: unchanged
store, one notification, 200. -/
theorem submit_store_failure_still_200_witness :
    (validPayload pJo ∧ envDbFail.dbOk = false) ∧
    ((submit_contact envDbFail pJo DB.init).db = DB.init ∧
     (submit_contact envDbFail pJo DB.init).notifications.length = 1 ∧
     (submit_contact envDbFail pJo DB.init).response =
       { status := 200, success := true,
         message := "Thank you! Your message has been sent successfully." }) :=
  ⟨⟨validPayload_pJo, rfl⟩,
   submit_store_failure_still_200 envDbFail pJo DB.init validPayload_pJo rfl⟩

/-- C4 counterexample: with `name = " Jo "` the dispatched subject keeps
the raw, untrimmed name and differs from the subject built from the
trimmed fields, so the claim that subject/body come from the trimmed
input is false. -/
theorem notification_trimmed_cex :
    validPayload pSpacey ∧
    (submit_contact envOk pSpacey DB.init).notifications.map
        (fun d => d.subject)
      ≠ [emailSubject (trimPayload pSpacey) envOk.uniqueId] :=
  ⟨validPayload_pSpacey, by decide⟩

/-- C4 amended: for every valid payload exactly one notification is
dispatched after validation, whatever the persistence outcome; its
recipient is the configured NOTIFY_EMAIL (default
`sales@dbmgroups.com`), and its subject and body are built from the raw
(as-submitted, untrimmed) input fields, not the stored record. -/
theorem notification_single_raw_fields (env : Env) (p : Payload) (db : DB)
    (h : validPayload p) :
    (submit_contact env p db).notifications =
      [{ subject := emailSubject p env.uniqueId
         recipient := notifyRecipient env
         body := emailBody p }] := by
  rw [submit_contact_valid env db h]

/-- C4 witness: one notification for the scenario payload even when the
store write fails, addressed to the default sales address. -/
theorem notification_single_raw_fields_witness :
    validPayload pJo ∧
    (submit_contact envDbFail pJo DB.init).notifications =
      [{ subject := emailSubject pJo envDbFail.uniqueId
         recipient := notifyRecipient envDbFail
         body := emailBody pJo }] :=
  ⟨validPayload_pJo,
   notification_single_raw_fields envDbFail pJo DB.init validPayload_pJo⟩

/-- C5: a valid, string-typed payload that persists successfully appends
exactly one row whose string fields equal the trimmed input (absent
optional fields stored as the empty string) and whose `submitted_at` is
the system write-time clock, at or after the request time. -/
theorem persisted_record_trimmed (env : Env) (p : Payload) (db : DB)
    (reqTime : Nat) (h : validPayload p)
    (hph : stringOrAbsent p.phone) (hco : stringOrAbsent p.company)
    (hsv : stringOrAbsent p.service)
    (hok : env.dbOk = true) (ht : reqTime ≤ env.now) :
    ∃ c, (submit_contact env p db).db.rows = db.rows ++ [c] ∧
      c.name = trimmedInput p.name ∧ c.email = trimmedInput p.email ∧
      c.phone = trimmedInput p.phone ∧ c.company = trimmedInput p.company ∧
      c.service = trimmedInput p.service ∧
      c.message = trimmedInput p.message ∧
      c.submitted_at = env.now ∧ reqTime ≤ c.submitted_at := by
  refine ⟨contactOf p db.nextId env.now, ?_,
    rfl, rfl, rfl, rfl, rfl, rfl, rfl, ht⟩
  rw [submit_contact_valid env db h]
  rw [trySave_success db h hph hco hsv hok]

/-- C5 witness: the scenario payload stores
`("Jo", "jo@x.com", "", "", "", "Hi")` at time 5 ≥ request time 3. -/
theorem persisted_record_trimmed_witness :
    (validPayload pJo ∧ stringOrAbsent pJo.phone ∧ stringOrAbsent pJo.company
      ∧ stringOrAbsent pJo.service ∧ envOk.dbOk = true ∧ 3 ≤ envOk.now) ∧
    (∃ c, (submit_contact envOk pJo DB.init).db.rows = DB.init.rows ++ [c] ∧
      c.name = trimmedInput pJo.name ∧ c.email = trimmedInput pJo.email ∧
      c.phone = trimmedInput pJo.phone ∧ c.company = trimmedInput pJo.company ∧
      c.service = trimmedInput pJo.service ∧
      c.message = trimmedInput pJo.message ∧
      c.submitted_at = envOk.now ∧ 3 ≤ c.submitted_at) :=
  ⟨⟨validPayload_pJo, trivial, trivial, trivial, rfl, by decide⟩,
   persisted_record_trimmed envOk pJo DB.init 3 validPayload_pJo
     trivial trivial trivial rfl (by decide)⟩

/-- The store after two submissions of the scenario payload in the same
clock instant. -/
def dbTwice : DB :=
  (submit_contact envOk pJo (submit_contact envOk pJo DB.init).db).db

/-- C6 counterexample: two rows can share `submitted_at` (two requests in
the same clock instant), and then the `/contacts` listing is not
STRICTLY descending, refuting the claim at a reachable store state. -/
theorem contacts_strictly_descending_cex :
    Reachable dbTwice ∧
    strictlyDescending ((list_contacts dbTwice).map
        (fun c => c.submitted_at)) = false :=
  ⟨Reachable.step
      (Reachable.step Reachable.init (Step.submit envOk pJo DB.init))
      (Step.submit envOk pJo (submit_contact envOk pJo DB.init).db),
   by decide⟩

/-- C6 amended: GET `/contacts` returns all persisted rows (each carrying
the eight serialised fields), ordered by `submitted_at` descending —
non-strictly: rows sharing a timestamp make consecutive entries equal. -/
theorem contacts_sorted_newest_first (db : DB) :
    (list_contacts db).Perm db.rows ∧
    List.Sorted newestFirst (list_contacts db) :=
  ⟨List.perm_insertionSort newestFirst db.rows,
   List.sorted_insertionSort newestFirst db.rows⟩

/-- C7: the notifier never lets an exception reach its caller: the result
is always `Except.ok`; a missing API key means a silent skip with no
delivery attempt; and every delivery attempt carries the 10 second
timeout. -/
theorem notifier_never_raises (apiKey fromEmail : Option String)
    (transport : EmailRequest → TransportOutcome)
    (subject recipient body : String) :
    ∃ log reqs,
      send_email_background apiKey fromEmail transport subject recipient body
        = Except.ok (log, reqs) ∧
      (apiKey = none → log = NotifyLog.skippedNoKey ∧ reqs = []) ∧
      (∀ q ∈ reqs, q.timeout = 10) := by
  cases apiKey with
  | none =>
    exact ⟨NotifyLog.skippedNoKey, [], rfl, fun _ => ⟨rfl, rfl⟩, by simp⟩
  | some k =>
    simp only [send_email_background]
    cases htr : transport (resendRequest fromEmail recipient subject body) with
    | ok st =>
      exact ⟨NotifyLog.sent st, [resendRequest fromEmail recipient subject body],
        by simp [htr], by simp, by simp [resendRequest]⟩
    | httpError c r b2 =>
      exact ⟨NotifyLog.failedHttp c r,
        [resendRequest fromEmail recipient subject body],
        by simp [htr], by simp, by simp [resendRequest]⟩
    | raised m =>
      exact ⟨NotifyLog.failedOther m,
        [resendRequest fromEmail recipient subject body],
        by simp [htr], by simp, by simp [resendRequest]⟩

/-- C7 witness: a raising transport with credentials set is fully
absorbed. -/
theorem notifier_never_raises_witness :
    ∃ log reqs,
      send_email_background (some "re_testkey") none downTransport
          "subject" "sales@dbmgroups.com" "body"
        = Except.ok (log, reqs) ∧
      ((some "re_testkey" : Option String) = none →
        log = NotifyLog.skippedNoKey ∧ reqs = []) ∧
      (∀ q ∈ reqs, q.timeout = 10) :=
  notifier_never_raises (some "re_testkey") none downTransport
    "subject" "sales@dbmgroups.com" "body"

/-- Whatever one POST does to the store, it appends zero or one rows, and
an appended row has non-blank trimmed `name`, `email`, `message`. -/
theorem submit_contact_db_append (env : Env) (p : Payload) (db : DB) :
    ∃ t, (submit_contact env p db).db.rows = db.rows ++ t ∧
      ∀ c ∈ t, pyTrim c.name = c.name ∧ c.name ≠ "" ∧
        pyTrim c.email = c.email ∧ c.email ≠ "" ∧
        pyTrim c.message = c.message ∧ c.message ≠ "" := by
  cases hcr : checkRequired p requiredFields with
  | error e =>
    refine ⟨[], ?_, by simp⟩
    simp [submit_contact, hcr]
  | ok o =>
    cases o with
    | some f =>
      refine ⟨[], ?_, by simp⟩
      simp [submit_contact, hcr]
    | none =>
      cases hbc : buildContact p db.nextId env.now with
      | error e =>
        refine ⟨[], ?_, by simp⟩
        simp [submit_contact, hcr, trySave, hbc]
      | ok c =>
        by_cases hok : env.dbOk = true
        · refine ⟨[c], ?_, ?_⟩
          · simp [submit_contact, hcr, trySave, hbc, hok]
          · intro c' hc'
            rw [List.mem_singleton] at hc'
            rw [hc']
            obtain ⟨hn, he, hm, _, _⟩ := buildContact_ok_inv hbc
            obtain ⟨n0, em0, m0, hn0, hnne, he0, hene, hm0, hmne⟩ :=
              checkRequired_none_inv hcr
            have en : c.name = n0 := by
              rw [hn] at hn0; exact Except.ok.inj hn0
            have ee : c.email = em0 := by
              rw [he] at he0; exact Except.ok.inj he0
            have em : c.message = m0 := by
              rw [hm] at hm0; exact Except.ok.inj hm0
            obtain ⟨u1, _, hu1⟩ := pyStrip_ok_inv hn
            obtain ⟨u2, _, hu2⟩ := pyStrip_ok_inv he
            obtain ⟨u3, _, hu3⟩ := pyStrip_ok_inv hm
            refine ⟨?_, en ▸ hnne, ?_, ee ▸ hene, ?_, em ▸ hmne⟩
            · rw [hu1, pyTrim_idem]
            · rw [hu2, pyTrim_idem]
            · rw [hu3, pyTrim_idem]
        · refine ⟨[], ?_, by simp⟩
          simp [submit_contact, hcr, trySave, hbc, hok]

/-- C8: reachable-state invariant: every persisted row has non-empty
(after trim) `name`, `email` and `message`; and no operation ever updates
or removes an existing row — every transition appends. -/
theorem store_invariant_append_only :
    (∀ db, Reachable db → ∀ c ∈ db.rows,
        pyTrim c.name ≠ "" ∧ pyTrim c.email ≠ "" ∧ pyTrim c.message ≠ "") ∧
    (∀ a b, Step a b → ∃ t, b.rows = a.rows ++ t) := by
  constructor
  · intro db hr
    induction hr with
    | init => intro c hc; cases hc
    | step ha hs ih =>
      rename_i a0 b0
      cases hs with
      | submit env p =>
        obtain ⟨t, hrows, hinv⟩ := submit_contact_db_append env p a0
        intro c hc
        rw [hrows] at hc
        rcases List.mem_append.mp hc with hc | hc
        · exact ih c hc
        · obtain ⟨h1, h2, h3, h4, h5, h6⟩ := hinv c hc
          refine ⟨?_, ?_, ?_⟩
          · rw [h1]; exact h2
          · rw [h3]; exact h4
          · rw [h5]; exact h6
      | readOnly => exact ih
  · intro a b hs
    cases hs with
    | submit env p =>
      obtain ⟨t, ht, _⟩ := submit_contact_db_append env p a
      exact ⟨t, ht⟩
    | readOnly => exact ⟨[], by simp⟩

/-- C8 witness: the invariant instantiated at the reachable two-row store
and its incoming transition. -/
theorem store_invariant_append_only_witness :
    Reachable dbTwice ∧
    (∀ c ∈ dbTwice.rows,
      pyTrim c.name ≠ "" ∧ pyTrim c.email ≠ "" ∧ pyTrim c.message ≠ "") ∧
    (∃ t, dbTwice.rows = (submit_contact envOk pJo DB.init).db.rows ++ t) :=
  have hreach : Reachable dbTwice :=
    Reachable.step
      (Reachable.step Reachable.init (Step.submit envOk pJo DB.init))
      (Step.submit envOk pJo (submit_contact envOk pJo DB.init).db)
  ⟨hreach, store_invariant_append_only.1 dbTwice hreach,
   store_invariant_append_only.2 (submit_contact envOk pJo DB.init).db dbTwice
     (Step.submit envOk pJo (submit_contact envOk pJo DB.init).db)⟩

/-- C9: submission is not idempotent: two successive submissions of the
same valid payload that both persist append two records, which are
distinct and have distinct system-assigned ids. -/
theorem submit_twice_distinct_ids (env1 env2 : Env) (p : Payload) (db : DB)
    (h : validPayload p)
    (hph : stringOrAbsent p.phone) (hco : stringOrAbsent p.company)
    (hsv : stringOrAbsent p.service)
    (h1 : env1.dbOk = true) (h2 : env2.dbOk = true) :
    ∃ c1 c2,
      (submit_contact env2 p (submit_contact env1 p db).db).db.rows
        = db.rows ++ [c1, c2] ∧ c1.id ≠ c2.id ∧ c1 ≠ c2 := by
  have hdb1 : (submit_contact env1 p db).db =
      { nextId := db.nextId + 1
        rows := db.rows ++ [contactOf p db.nextId env1.now] } := by
    rw [submit_contact_valid env1 db h]
    exact trySave_success db h hph hco hsv h1
  refine ⟨contactOf p db.nextId env1.now,
          contactOf p (db.nextId + 1) env2.now, ?_, ?_, ?_⟩
  · rw [submit_contact_valid env2 _ h]
    rw [hdb1]
    rw [trySave_success _ h hph hco hsv h2]
    simp [contactOf]
  · simp [contactOf]
  · intro hc
    have : (contactOf p db.nextId env1.now).id
        = (contactOf p (db.nextId + 1) env2.now).id := by rw [hc]
    simp [contactOf] at this
  
/-- C9 witness: the scenario payload submitted twice yields rows with ids
1 and 2. -/
theorem submit_twice_distinct_ids_witness :
    (validPayload pJo ∧ envOk.dbOk = true) ∧
    (∃ c1 c2,
      (submit_contact envOk pJo (submit_contact envOk pJo DB.init).db).db.rows
        = DB.init.rows ++ [c1, c2] ∧ c1.id ≠ c2.id ∧ c1 ≠ c2) :=
  ⟨⟨validPayload_pJo, rfl⟩,
   submit_twice_distinct_ids envOk envOk pJo DB.init validPayload_pJo
     trivial trivial trivial rfl rfl⟩

/-- The payload `{"name":"", "email": null, "message":"Hi"}`: a blank
required field before a non-string one. -/
def pBlankNull : Payload :=
  { name := some (JVal.jstr ""), email := some (JVal.jother false "None"),
    phone := none, company := none, service := none,
    message := some (JVal.jstr "Hi") }

/-- C10 counterexample: this payload has a required field (`email`)
holding a non-string JSON value, yet the handler returns 400 (for the
earlier blank `name`), not the claimed 500. -/
theorem nonstring_field_500_cex :
    pBlankNull.email = some (JVal.jother false "None") ∧
    (submit_contact envOk pBlankNull DB.init).response.status = 400 ∧
    ¬ (submit_contact envOk pBlankNull DB.init).response.status = 500 :=
  ⟨rfl, by decide, by decide⟩

/-- C10 amended: when the FIRST required field failing validation (in the
order `name`, `email`, `message`) holds a non-string value, `.strip()`
raises, the outer handler returns the generic 500 body, and no record is
persisted and no notification attempted. -/
theorem nonstring_field_500 (env : Env) (p : Payload) (db : DB) (f : String)
    (hf : firstOffender p = some (f, true)) :
    (submit_contact env p db).response =
      { status := 500, success := false,
        message := "Server error. Please try again later." } ∧
    (submit_contact env p db).db = db ∧
    (submit_contact env p db).notifications = [] ∧
    (submit_contact env p db).emailLogs = [] := by
  obtain ⟨e, he⟩ := checkRequired_error_of_offender hf
  simp [submit_contact, he]

/-- C10 witness: `{"name":"Jo","email":null,"message":"Hi"}` yields the
generic 500 with no side effects. -/
theorem nonstring_field_500_witness :
    firstOffender
      { name := some (JVal.jstr "Jo"),
        email := some (JVal.jother false "None"), phone := none,
        company := none, service := none,
        message := some (JVal.jstr "Hi") } = some ("email", true) ∧
    (submit_contact envOk
      { name := some (JVal.jstr "Jo"),
        email := some (JVal.jother false "None"), phone := none,
        company := none, service := none,
        message := some (JVal.jstr "Hi") } DB.init).response =
      { status := 500, success := false,
        message := "Server error. Please try again later." } :=
  ⟨by decide,
   (nonstring_field_500 envOk
     { name := some (JVal.jstr "Jo"),
       email := some (JVal.jother false "None"), phone := none,
       company := none, service := none,
       message := some (JVal.jstr "Hi") } DB.init "email" (by decide)).1⟩
